import Mathlib

/-!
Verification development for the book-metadata integration pipeline
(`src/utils_isbn.py`, `src/utils_quality.py`, `src/integrate_pipeline.py`).

The Python functions are shallowly embedded as executable Lean definitions:
pandas `NaN`/`None` values become `Option`, DataFrame rows become structures,
float prices/ratings become `ℚ`, and DataFrame column sets are modelled as
lists of column names where column presence matters.  Python's Unicode
operations (`str.upper`, `str.strip`, NFD accent stripping) are modelled on
the ASCII fragment, where they agree with the simple character maps used
here; none of the proved properties depends on behaviour outside ASCII.
-/

namespace SBD

/-! ## Identifier Normalizer (`src/utils_isbn.py`) -/

/-- Numeric value of a decimal digit character (Python `int(c)` for `'0'`-`'9'`). -/
def charDigit (c : Char) : Nat := c.toNat - 48

/-- Character kept by `clean_isbn`'s regex `[^0-9Xx]` removal. -/
def isbnKeepChar (c : Char) : Bool := c.isDigit || c == 'X' || c == 'x'

/-- `clean_isbn` (utils_isbn.py:7-36): keep only digits and `X`/`x`, uppercase,
`none` if nothing remains.  Python's `str.upper` restricted to the kept
alphabet `{0-9, X, x}` maps `'x'` to `'X'` and fixes everything else. -/
def clean_isbn (s : String) : Option String :=
  let t := (s.data.filter isbnKeepChar).map fun c => if c = 'x' then 'X' else c
  if t = [] then none else some ⟨t⟩

/-- Weighted ISBN-10 checksum total (utils_isbn.py:61-68):
`sum(int(isbn[i]) * (10-i) for i in 0..8)` plus the last position,
where a trailing `X` counts as 10. -/
def isbn10_total (l : List Char) : Nat :=
  (List.zipWith (fun c w => charDigit c * w) (l.take 9)
      [10, 9, 8, 7, 6, 5, 4, 3, 2]).sum
  + (if l.getD 9 '0' = 'X' then 10 else charDigit (l.getD 9 '0'))

/-- `validate_isbn10` (utils_isbn.py:38-73).  A non-digit among the first nine
cleaned characters makes Python's `int()` raise, caught and turned into
`False`; that is the `all Char.isDigit` guard. -/
def validate_isbn10 (s : String) : Bool :=
  match clean_isbn s with
  | none => false
  | some c =>
    let l := c.data
    if l.length = 10 then
      if (l.take 9).all Char.isDigit then
        isbn10_total l % 11 = 0
      else false
    else false

/-- Alternating 1/3-weighted checksum over the first 12 digits
(utils_isbn.py:102-103 and 136-137). -/
def isbn13_checksum (l : List Char) : Nat :=
  ((l.take 12).enum.map fun ic =>
    if ic.1 % 2 = 0 then charDigit ic.2 else 3 * charDigit ic.2).sum

/-- `validate_isbn13` (utils_isbn.py:75-110).  Any non-digit (e.g. `X`) makes
`int(d)` raise, caught and turned into `False`. -/
def validate_isbn13 (s : String) : Bool :=
  match clean_isbn s with
  | none => false
  | some c =>
    let l := c.data
    if l.length = 13 then
      if l.all Char.isDigit then
        (10 - isbn13_checksum l % 10) % 10 = charDigit (l.getD 12 '0')
      else false
    else false

/-- Decimal digit character for a value below ten (Python `str(check_digit)`). -/
def digitChar (n : Nat) : Char := Char.ofNat (48 + n)

/-- `isbn10_to_isbn13` (utils_isbn.py:112-140): reject unless `validate_isbn10`
passes, drop the old check digit, prepend `978`, recompute the 13-digit
check digit and append it. -/
def isbn10_to_isbn13 (s : String) : Option String :=
  if validate_isbn10 s then
    match clean_isbn s with
    | none => none
    | some c =>
      let base := '9' :: '7' :: '8' :: c.data.take 9
      let cd := (10 - isbn13_checksum base % 10) % 10
      some ⟨base ++ [digitChar cd]⟩
  else none

/-! ## MD5 (`hashlib.md5`, used by `generar_book_id`)

A pure implementation over `Nat`, with 32-bit words represented as naturals
reduced modulo `2^32`.  Bytes are the UTF-8 encoding of the input string,
matching `key.encode('utf-8')`. -/

/-- UTF-8 encoding of one code point, as byte values. -/
def charUtf8 (c : Char) : List Nat :=
  let n := c.toNat
  if n < 128 then [n]
  else if n < 2048 then [192 + n / 64, 128 + n % 64]
  else if n < 65536 then
    [224 + n / 4096, 128 + (n / 64) % 64, 128 + n % 64]
  else
    [240 + n / 262144, 128 + (n / 4096) % 64, 128 + (n / 64) % 64, 128 + n % 64]

/-- UTF-8 byte sequence of a string. -/
def utf8Bytes (s : String) : List Nat := s.data.flatMap charUtf8

/-- 2^32, the word modulus of MD5 arithmetic. -/
def m32 : Nat := 4294967296

/-- All-ones 32-bit mask, used for bitwise complement. -/
def mask32 : Nat := 4294967295

/-- Left-rotation of a 32-bit word. -/
def rotl32 (x s : Nat) : Nat := ((x <<< s) + (x >>> (32 - s))) % m32

/-- MD5 per-round left-rotation amounts. -/
def md5_s : List Nat :=
  [7, 12, 17, 22, 7, 12, 17, 22, 7, 12, 17, 22, 7, 12, 17, 22,
   5, 9, 14, 20, 5, 9, 14, 20, 5, 9, 14, 20, 5, 9, 14, 20,
   4, 11, 16, 23, 4, 11, 16, 23, 4, 11, 16, 23, 4, 11, 16, 23,
   6, 10, 15, 21, 6, 10, 15, 21, 6, 10, 15, 21, 6, 10, 15, 21]

/-- MD5 round constants `floor(abs(sin(i+1)) * 2^32)`. -/
def md5_K : List Nat :=
  [3614090360, 3905402710, 606105819, 3250441966,
   4118548399, 1200080426, 2821735955, 4249261313,
   1770035416, 2336552879, 4294925233, 2304563134,
   1804603682, 4254626195, 2792965006, 1236535329,
   4129170786, 3225465664, 643717713, 3921069994,
   3593408605, 38016083, 3634488961, 3889429448,
   568446438, 3275163606, 4107603335, 1163531501,
   2850285829, 4243563512, 1735328473, 2368359562,
   4294588738, 2272392833, 1839030562, 4259657740,
   2763975236, 1272893353, 4139469664, 3200236656,
   681279174, 3936430074, 3572445317, 76029189,
   3654602809, 3873151461, 530742520, 3299628645,
   4096336452, 1126891415, 2878612391, 4237533241,
   1700485571, 2399980690, 4293915773, 2240044497,
   1873313359, 4264355552, 2734768916, 1309151649,
   4149444226, 3174756917, 718787259, 3951481745]

/-- MD5 padding: append `0x80`, zero-fill to 56 mod 64, then the bit length
as eight little-endian bytes. -/
def md5Pad (msg : List Nat) : List Nat :=
  let len := msg.length
  let zeros := (119 - len % 64) % 64
  let bitLen := 8 * len
  msg ++ [128] ++ List.replicate zeros 0
      ++ ((List.range 8).map fun i => (bitLen >>> (8 * i)) % 256)

/-- Split a padded byte list into 64-byte blocks.  The `fuel` argument makes
the recursion structural (so that it reduces definitionally); every step
consumes at least one byte, so `fuel = l.length` is always sufficient. -/
def md5ChunksFuel (fuel : Nat) (l : List Nat) : List (List Nat) :=
  match fuel, l with
  | 0, _ => []
  | _, [] => []
  | f + 1, l => l.take 64 :: md5ChunksFuel f (l.drop 64)

/-- Split a padded byte list into 64-byte blocks. -/
def md5Chunks (l : List Nat) : List (List Nat) := md5ChunksFuel l.length l

/-- Little-endian 32-bit word `g` of a 64-byte block. -/
def md5Word (blk : List Nat) (g : Nat) : Nat :=
  blk.getD (4 * g) 0 + 256 * blk.getD (4 * g + 1) 0
    + 65536 * blk.getD (4 * g + 2) 0 + 16777216 * blk.getD (4 * g + 3) 0

/-- One MD5 round `i` on state `(a, b, c, d)` over block `blk`. -/
def md5Round (blk : List Nat) (st : Nat × Nat × Nat × Nat) (i : Nat) :
    Nat × Nat × Nat × Nat :=
  let a := st.1
  let b := st.2.1
  let c := st.2.2.1
  let d := st.2.2.2
  let fg : Nat × Nat :=
    if i < 16 then ((b &&& c) ||| ((b ^^^ mask32) &&& d), i)
    else if i < 32 then ((d &&& b) ||| ((d ^^^ mask32) &&& c), (5 * i + 1) % 16)
    else if i < 48 then (b ^^^ c ^^^ d, (3 * i + 5) % 16)
    else (c ^^^ (b ||| (d ^^^ mask32)), (7 * i) % 16)
  let f := (fg.1 + a + md5_K.getD i 0 + md5Word blk fg.2) % m32
  (d, (b + rotl32 f (md5_s.getD i 0)) % m32, b, c)

/-- Process one 64-byte block: run 64 rounds, then add into the state. -/
def md5Block (st : Nat × Nat × Nat × Nat) (blk : List Nat) :
    Nat × Nat × Nat × Nat :=
  let r := (List.range 64).foldl (md5Round blk) st
  ((st.1 + r.1) % m32, (st.2.1 + r.2.1) % m32,
   (st.2.2.1 + r.2.2.1) % m32, (st.2.2.2 + r.2.2.2) % m32)

/-- Lowercase hexadecimal digit for a value below 16: `0`-`9` then `a`-`f`. -/
def hexDigitChar (n : Nat) : Char :=
  if n < 10 then Char.ofNat (48 + n) else Char.ofNat (87 + n)

/-- Two lowercase hex digits of a byte. -/
def byteHex (b : Nat) : List Char :=
  [hexDigitChar (b / 16 % 16), hexDigitChar (b % 16)]

/-- Hex rendering of a 32-bit word, least-significant byte first
(MD5 digests are serialized little-endian). -/
def wordHexLE (x : Nat) : List Char :=
  byteHex (x % 256) ++ byteHex (x / 256 % 256)
    ++ byteHex (x / 65536 % 256) ++ byteHex (x / 16777216 % 256)

/-- `hashlib.md5(s.encode('utf-8')).hexdigest()`. -/
def md5Hex (s : String) : String :=
  let final := (md5Chunks (md5Pad (utf8Bytes s))).foldl md5Block
    (1732584193, 4023233417, 2562383102, 271733878)
  ⟨wordHexLE final.1 ++ wordHexLE final.2.1
    ++ wordHexLE final.2.2.1 ++ wordHexLE final.2.2.2⟩

/-! ## Canonical key generator (`integrate_pipeline.py:257-283`)

`generar_book_id` reads the fields `isbn13`, `isbn10`, `titulo_normalizado`,
`autor_normalizado`, `editorial` and `anio_publicacion` of a staged row;
both staged record sets carry exactly these fields.  Missing values
(`None`/`NaN`) are `none`. -/

/-- The key fields of one normalized staged row, as read by `generar_book_id`. -/
structure BookRow where
  isbn13 : Option String
  isbn10 : Option String
  titulo_normalizado : Option String
  autor_normalizado : Option String
  editorial : Option String
  anio_publicacion : Option Int

/-- Tier-3 key material (integrate_pipeline.py:275-280).  For the three string
components `row.get(...) or ''` turns a missing value into `''`.  For the year
the source computes `str(row.get('anio_publicacion', '')) or ''`: `str` runs
*before* the `or`, so a missing year becomes the non-empty string `"None"`
(or `"nan"` when pandas stores the missing year as a float NaN — non-empty
either way; this embedding uses the Python `None` rendering). -/
def bookKeyMaterial (r : BookRow) : String :=
  (r.titulo_normalizado.getD "") ++ "|" ++ (r.autor_normalizado.getD "")
    ++ "|" ++ (r.editorial.getD "") ++ "|"
    ++ (match r.anio_publicacion with
        | some y => toString y
        | none => "None")

/-- Tier-3 key material as the spec describes it: `normalized_title |
normalized_author | publisher | year` with *every* absent component —
including the year — replaced by the empty string.  Kept separate from
`bookKeyMaterial` (the code's actual behaviour) for comparison. -/
def specBookKeyMaterial (r : BookRow) : String :=
  (r.titulo_normalizado.getD "") ++ "|" ++ (r.autor_normalizado.getD "")
    ++ "|" ++ (r.editorial.getD "") ++ "|"
    ++ (match r.anio_publicacion with
        | some y => toString y
        | none => "")

/-- Tier-3 fallback: `"hash_" + md5(key)[:16]` (integrate_pipeline.py:281-283). -/
def generar_book_id_hash (r : BookRow) : String :=
  "hash_" ++ ⟨(md5Hex (bookKeyMaterial r)).data.take 16⟩

/-- Tier 2 then tier 3 (integrate_pipeline.py:269-283): a non-null `isbn10`
that `isbn10_to_isbn13` converts wins, otherwise the hash key. -/
def generar_book_id_sin13 (r : BookRow) : String :=
  match r.isbn10 with
  | some v10 =>
    match isbn10_to_isbn13 v10 with
    | some c => c
    | none => generar_book_id_hash r
  | none => generar_book_id_hash r

/-- `generar_book_id` (integrate_pipeline.py:257-283): a valid `isbn13` wins,
then a convertible `isbn10`, then the tier-3 hash. -/
def generar_book_id (r : BookRow) : String :=
  match r.isbn13 with
  | some v13 => if validate_isbn13 v13 then v13 else generar_book_id_sin13 r
  | none => generar_book_id_sin13 r

/-! ## Field Normalizer (`integrate_pipeline.py:138-216`) -/

/-- Python `str.strip()`: drop leading and trailing whitespace.  Implemented
directly on the character list so that it reduces definitionally (Lean's
`String.trim` does not); agrees with Python on ASCII whitespace. -/
def pyStrip (s : String) : String :=
  ⟨((s.data.dropWhile Char.isWhitespace).reverse.dropWhile
      Char.isWhitespace).reverse⟩

/-- ASCII lowercase map; agrees with Python `str.lower` on ASCII. -/
def asciiLower (s : String) : String :=
  ⟨s.data.map fun c =>
    if 'A' ≤ c ∧ c ≤ 'Z' then Char.ofNat (c.toNat + 32) else c⟩

/-- ASCII uppercase map; agrees with Python `str.upper` on ASCII. -/
def asciiUpper (s : String) : String :=
  ⟨s.data.map fun c =>
    if 'a' ≤ c ∧ c ≤ 'z' then Char.ofNat (c.toNat - 32) else c⟩

/-- Split a character list on whitespace runs, dropping empty pieces —
Python `s.split()` with no arguments. -/
def pyWords (l : List Char) : List (List Char) :=
  match l with
  | [] => []
  | c :: rest =>
    if c.isWhitespace then pyWords rest
    else
      match pyWords rest with
      | [] => [[c]]
      | w :: ws =>
        match rest with
        | [] => [[c]]
        | r :: _ => if r.isWhitespace then [c] :: w :: ws else (c :: w) :: ws

/-- `' '.join(s.split())`: collapse whitespace runs to single spaces and trim. -/
def pyCollapseSpaces (s : String) : String :=
  ⟨List.intercalate [' '] (pyWords s.data)⟩

/-- `normalizar_titulo` (integrate_pipeline.py:138-161): NFD-decompose and
drop combining marks (identity on ASCII, which is all the proofs use),
lowercase, replace non-alphanumeric/non-space characters by a space,
collapse whitespace. -/
def normalizar_titulo (t : Option String) : Option String :=
  match t with
  | none => none
  | some s =>
    let lowered := asciiLower s
    let replaced : String :=
      ⟨lowered.data.map fun c =>
        if c.isAlphanum ∨ c.isWhitespace then c else ' '⟩
    some (pyCollapseSpaces replaced)

/-- `normalizar_autor` (integrate_pipeline.py:164-178): NFD-decompose and drop
combining marks (identity on ASCII), lowercase, strip. -/
def normalizar_autor (a : Option String) : Option String :=
  match a with
  | none => none
  | some s => some (pyStrip (asciiLower s))

/-- `normalizar_fecha` (integrate_pipeline.py:181-200).  Note that the first
two shape tests only check length and dash positions — they do **not**
require digits; only the bare-year case checks `isdigit`. -/
def normalizar_fecha (fecha : Option String) : Option String :=
  match fecha with
  | none => none
  | some f =>
    let s := pyStrip f
    let l := s.data
    if l.length = 10 ∧ l.getD 4 ' ' = '-' ∧ l.getD 7 ' ' = '-' then some s
    else if l.length = 7 ∧ l.getD 4 ' ' = '-' then some (s ++ "-01")
    else if l.length = 4 ∧ l.all Char.isDigit then some (s ++ "-01-01")
    else none

/-- `normalizar_idioma` (integrate_pipeline.py:203-208): lowercase + strip. -/
def normalizar_idioma (idioma : Option String) : Option String :=
  idioma.map fun s => pyStrip (asciiLower s)

/-- `normalizar_moneda` (integrate_pipeline.py:211-216): uppercase + strip. -/
def normalizar_moneda (moneda : Option String) : Option String :=
  moneda.map fun s => pyStrip (asciiUpper s)

/-! ## Quality utilities (`src/utils_quality.py`) -/

/-- Uppercase ASCII letter, the character class of the regex `[A-Z]`. -/
def isUpperAlpha (c : Char) : Bool := 'A' ≤ c && c ≤ 'Z'

/-- The fixed allow-list of common currency codes (utils_quality.py:120-123). -/
def common_currencies : List String :=
  ["USD", "EUR", "GBP", "JPY", "AUD", "CAD", "CHF",
   "CNY", "SEK", "NZD", "MXN", "BRL", "ARS", "CLP"]

/-- `validate_iso4217_currency` (utils_quality.py:102-125): `none` (NaN) is
invalid; otherwise the value is stripped and uppercased *first*, then tested
for allow-list membership or the regex `^[A-Z]{3}$` (length 3, all
uppercase letters). -/
def validate_iso4217_currency (currency : Option String) : Bool :=
  match currency with
  | none => false
  | some v =>
    let s := asciiUpper (pyStrip v)
    common_currencies.contains s || (s.length = 3 && s.data.all isUpperAlpha)

/-- The currency predicate as claim C6 words it, applied to the *raw* value:
true iff the value itself is exactly 3 uppercase letters or is a member of
the fixed allow-list.  Kept separate from `validate_iso4217_currency` (the
code's behaviour) for comparison. -/
def claimCurrencyPred (v : String) : Bool :=
  (v.length = 3 && v.data.all isUpperAlpha) || common_currencies.contains v

/-- A pandas DataFrame as `calculate_completeness` sees it: a row count
(`len(df)`) and named columns of nullable cells. -/
structure PyDataFrame (α : Type) where
  nrows : Nat
  cols : List (String × List (Option α))

/-- `calculate_completeness` (utils_quality.py:5-24): `0.0` when the column is
absent or the frame is empty, otherwise the non-null fraction times 100. -/
def calculate_completeness {α : Type} (df : PyDataFrame α) (column : String) :
    ℚ :=
  match df.cols.lookup column with
  | none => 0
  | some col =>
    if df.nrows = 0 then 0
    else ((col.countP Option.isSome : ℚ) / (df.nrows : ℚ)) * 100

/-! ## Staged record sets (`mapear_goodreads` / `mapear_googlebooks` +
`normalizar_df` + `agregar_book_id`)

Both staged frames share the same column set except `fecha_publicacion`,
which only `mapear_googlebooks` creates (integrate_pipeline.py:118); the
Goodreads staging (integrate_pipeline.py:66-86) has no date column.
Missing/NaN cells are `none`; floats (rating, price) are rationals. -/

/-- One staged + normalized Goodreads row. -/
structure GRRow where
  book_id : String
  source_name : Option String
  source_row_number : Option Int
  titulo : Option String
  autor : Option String
  rating : Option ℚ
  ratings_count : Option Int
  anio_publicacion : Option Int
  isbn10 : Option String
  isbn13 : Option String
  book_url : Option String
  editorial : Option String
  idioma : Option String
  paginas : Option Int
  categorias : Option String
  precio : Option ℚ
  moneda : Option String
  subtitulo : Option String
  autores_lista : Option String
  titulo_normalizado : Option String
  autor_normalizado : Option String

/-- One staged + normalized Google Books row; identical to `GRRow` plus the
`fecha_publicacion` column that only this source has. -/
structure GBRow where
  book_id : String
  source_name : Option String
  source_row_number : Option Int
  titulo : Option String
  autor : Option String
  rating : Option ℚ
  ratings_count : Option Int
  anio_publicacion : Option Int
  isbn10 : Option String
  isbn13 : Option String
  book_url : Option String
  editorial : Option String
  idioma : Option String
  paginas : Option Int
  categorias : Option String
  precio : Option ℚ
  moneda : Option String
  subtitulo : Option String
  autores_lista : Option String
  titulo_normalizado : Option String
  autor_normalizado : Option String
  fecha_publicacion : Option String

/-- Column names of the staged Goodreads frame, in construction order
(integrate_pipeline.py:66-86, then 226-227, then 290). -/
def grColumns : List String :=
  ["source_name", "source_row_number", "titulo", "autor", "rating",
   "ratings_count", "anio_publicacion", "isbn10", "isbn13", "book_url",
   "editorial", "idioma", "paginas", "categorias", "precio", "moneda",
   "subtitulo", "autores_lista", "titulo_normalizado", "autor_normalizado",
   "book_id"]

/-- Column names of the staged Google Books frame
(integrate_pipeline.py:109-130, then 226-227, then 290). -/
def gbColumns : List String :=
  ["source_name", "source_row_number", "titulo", "subtitulo", "autor",
   "autores_lista", "editorial", "anio_publicacion", "fecha_publicacion",
   "idioma", "paginas", "categorias", "isbn10", "isbn13", "precio", "moneda",
   "rating", "ratings_count", "book_url", "titulo_normalizado",
   "autor_normalizado", "book_id"]

/-- Column names of `pd.merge(df_gr, df_gb, on='book_id', how='outer',
suffixes=('_gr', '_gb'))` (integrate_pipeline.py:313-319): pandas suffixes
only the columns present in *both* frames; one-sided columns keep their
name, and the join key stays unsuffixed. -/
def mergedColumns : List String :=
  (grColumns.map fun c =>
    if c ≠ "book_id" ∧ c ∈ gbColumns then c ++ "_gr" else c)
  ++ ((gbColumns.filter (· ≠ "book_id")).map fun c =>
    if c ∈ grColumns then c ++ "_gb" else c)

/-- One row of the outer-joined frame: the key plus the (possibly absent)
contribution of each side.  A side being `none` models all of that side's
suffixed columns being NaN on the row. -/
structure MergedRow where
  book_id : String
  gr : Option GRRow
  gb : Option GBRow

/-- `consolidar_fuentes` (integrate_pipeline.py:305-323): full outer join on
`book_id`.  Each left row pairs with every matching right row (or stands
alone), then unmatched right rows are appended; this reproduces the outer
merge's multiset of rows (pandas emits them in a different order, which no
property below depends on). -/
def consolidar_fuentes (dfGr : List GRRow) (dfGb : List GBRow) :
    List MergedRow :=
  (dfGr.flatMap fun a =>
    let ms := dfGb.filter fun b => b.book_id == a.book_id
    if ms.isEmpty then [⟨a.book_id, some a, none⟩]
    else ms.map fun b => ⟨a.book_id, some a, some b⟩)
  ++ ((dfGb.filter fun b =>
        !dfGr.any fun a => b.book_id == a.book_id).map
      fun b => ⟨b.book_id, none, some b⟩)

/-! ## Survivorship (`aplicar_supervivencia`, integrate_pipeline.py:329-470) -/

/-- The consolidated one-row-per-book output record. -/
structure CRow where
  book_id : String
  titulo : Option String
  titulo_normalizado : Option String
  subtitulo : Option String
  autor_principal : Option String
  autor_normalizado : Option String
  autores : Option (List String)
  editorial : Option String
  anio_publicacion : Option Int
  fecha_publicacion : Option String
  idioma : Option String
  isbn10 : Option String
  isbn13 : Option String
  paginas : Option Int
  categorias : Option (List String)
  precio : Option ℚ
  moneda : Option String
  rating : Option ℚ
  ratings_count : Option Int
  fuente_ganadora : String
  ts_ultima_actualizacion : String

/-- Python `max(l, key=len)`: the first string of maximal length. -/
def pyMaxByLen (l : List String) : Option String :=
  match l with
  | [] => none
  | t :: ts => some (ts.foldl (fun b x => if x.length > b.length then x else b) t)

/-- Python `s.split('|')`: split on pipes, keeping empty pieces. -/
def splitPipe (l : List Char) : List (List Char) :=
  match l with
  | [] => [[]]
  | c :: rest =>
    let r := splitPipe rest
    if c = '|' then [] :: r
    else
      match r with
      | [] => [[c]]
      | w :: ws => (c :: w) :: ws

/-- `[x.strip() for x in s.split('|') if x.strip()]` — the list parse used for
author lists and categories (integrate_pipeline.py:372, 429). -/
def pipeList (s : String) : List String :=
  ((splitPipe s.data).map fun w => pyStrip ⟨w⟩).filter (· ≠ "")

/-- Per-row presence flags of the 20 `_gr`-suffixed columns of the merged
frame (every `GRRow` column except the unsuffixed join key `book_id`). -/
def grPresence (r : GRRow) : List Bool :=
  [r.source_name.isSome, r.source_row_number.isSome, r.titulo.isSome,
   r.autor.isSome, r.rating.isSome, r.ratings_count.isSome,
   r.anio_publicacion.isSome, r.isbn10.isSome, r.isbn13.isSome,
   r.book_url.isSome, r.editorial.isSome, r.idioma.isSome, r.paginas.isSome,
   r.categorias.isSome, r.precio.isSome, r.moneda.isSome, r.subtitulo.isSome,
   r.autores_lista.isSome, r.titulo_normalizado.isSome,
   r.autor_normalizado.isSome]

/-- Per-row presence flags of the 20 `_gb`-suffixed columns of the merged
frame.  `fecha_publicacion` is *not* among them: being one-sided it keeps
its unsuffixed name (see `mergedColumns`), so `endswith('_gb')` misses it. -/
def gbPresence (r : GBRow) : List Bool :=
  [r.source_name.isSome, r.source_row_number.isSome, r.titulo.isSome,
   r.autor.isSome, r.rating.isSome, r.ratings_count.isSome,
   r.anio_publicacion.isSome, r.isbn10.isSome, r.isbn13.isSome,
   r.book_url.isSome, r.editorial.isSome, r.idioma.isSome, r.paginas.isSome,
   r.categorias.isSome, r.precio.isSome, r.moneda.isSome, r.subtitulo.isSome,
   r.autores_lista.isSome, r.titulo_normalizado.isSome,
   r.autor_normalizado.isSome]

/-- `aplicar_supervivencia` (integrate_pipeline.py:329-470) on one group of
merged rows sharing a key.  `group.iloc[0]` reads the first row, so the
empty group (impossible for `groupby` output) is `none`.

The publication date (integrate_pipeline.py:389-395) is translated as the
constant `none`: the source guards on `'fecha_publicacion_gb' in
group.columns`, and the merged frame never has that column — pandas only
suffixes columns present in both frames, and `fecha_publicacion` exists
only on the Google Books side, so it survives the merge *unsuffixed*
(proved below as `fecha_gb_not_in_mergedColumns`); the guard is always
false and the else-branch `None` is always taken. -/
def aplicar_supervivencia (group : List MergedRow) (ts_run : String) :
    Option CRow :=
  match group with
  | [] => none
  | h :: _ =>
    let titulos := (group.flatMap fun r =>
      [r.gr.bind (·.titulo), r.gb.bind (·.titulo)]).filterMap id
    let titulo := pyMaxByLen titulos
    let autor_principal := h.gb.bind (·.autor) <|> h.gr.bind (·.autor)
    let autores := pipeList ((h.gb.bind (·.autores_lista)).getD "")
    let categorias := pipeList ((h.gb.bind (·.categorias)).getD "")
    let count_gb := match h.gb with
      | none => 0
      | some b => (gbPresence b).count true
    let count_gr := match h.gr with
      | none => 0
      | some g => (grPresence g).count true
    some
      { book_id := h.book_id
        titulo := titulo
        titulo_normalizado := normalizar_titulo titulo
        subtitulo := h.gb.bind (·.subtitulo)
        autor_principal := autor_principal
        autor_normalizado := normalizar_autor autor_principal
        autores := if autores = [] then none else some autores
        editorial := h.gb.bind (·.editorial) <|> h.gr.bind (·.editorial)
        anio_publicacion :=
          h.gb.bind (·.anio_publicacion) <|> h.gr.bind (·.anio_publicacion)
        fecha_publicacion := none
        idioma := h.gb.bind (·.idioma)
        isbn10 := h.gb.bind (·.isbn10) <|> h.gr.bind (·.isbn10)
        isbn13 := h.gb.bind (·.isbn13) <|> h.gr.bind (·.isbn13)
        paginas := h.gb.bind (·.paginas)
        categorias := if categorias = [] then none else some categorias
        precio := h.gb.bind (·.precio)
        moneda := h.gb.bind (·.moneda)
        rating := h.gr.bind (·.rating)
        ratings_count := h.gr.bind (·.ratings_count)
        fuente_ganadora :=
          if count_gb ≥ count_gr then "googlebooks" else "goodreads"
        ts_ultima_actualizacion := ts_run }

/-- The distinct keys of the merged frame in the order `groupby` visits them
(sorted; `groupby(..., sort=True)` is the pandas default). -/
def sortedKeys (merged : List MergedRow) : List String :=
  ((merged.map (·.book_id)).dedup).insertionSort (· ≤ ·)

/-- `deduplicar` (integrate_pipeline.py:473-491): one consolidated row per
`book_id` group. -/
def deduplicar (merged : List MergedRow) (ts_run : String) : List CRow :=
  (sortedKeys merged).filterMap fun k =>
    aplicar_supervivencia (merged.filter fun r => r.book_id == k) ts_run

/-! ## Quality gate (`assert_calidad`, integrate_pipeline.py:622-654) -/

/-- The `dim_book` frame as `calculate_completeness(dim_book, 'titulo')` sees
it: `len(dim_book)` rows and the `titulo` column. -/
def dim_df (dim_book : List CRow) : PyDataFrame String :=
  ⟨dim_book.length, [("titulo", dim_book.map (·.titulo))]⟩

/-- pandas `Series.is_unique` for the `book_id` column. -/
def series_is_unique (l : List String) : Bool := decide l.Nodup

/-- The condition of assertion 3 (integrate_pipeline.py:638-645) over the
list of present prices: vacuously true when no price is present
(`precios_validos.sum() > 0` fails), else `0 <= min and max <= 1000`. -/
def precios_en_rango (ps : List ℚ) : Bool :=
  match ps with
  | [] => true
  | p :: rest =>
    decide (0 ≤ rest.foldl min p ∧ rest.foldl max p ≤ 1000)

/-- Assertion 3 of the quality gate (integrate_pipeline.py:637-646): if any
prices are present, `0 <= min` and `max <= 1000` must hold. -/
def assert_precios (dim_book : List CRow) : Except String Unit :=
  if precios_en_rango (dim_book.filterMap (·.precio)) then Except.ok ()
  else Except.error "ERROR: Precios fuera de rango [0, 1000]"

/-- `assert_calidad` (integrate_pipeline.py:622-654): the four blocking
assertions in source order; the first violated one aborts the run with a
descriptive error (assertion messages abbreviated: the Python originals
interpolate the measured values). -/
def assert_calidad (dim_book : List CRow) : Except String Unit :=
  if calculate_completeness (dim_df dim_book) "titulo" < 90 then
    Except.error "ERROR: titulos validos por debajo del minimo 90%"
  else if !series_is_unique (dim_book.map (·.book_id)) then
    Except.error "ERROR: book_id duplicados detectados"
  else
    match assert_precios dim_book with
    | Except.error e => Except.error e
    | Except.ok _ =>
      if dim_book.length < 10 then Except.error "ERROR: menos de 10 libros"
      else Except.ok ()

/-! ## Claim-side predicates and concrete inputs used by the theorems -/

/-- The literal shape `YYYY-MM-DD` (digits in the digit positions), as claim
C5 words it. -/
def specFechaYMD (s : String) : Bool :=
  match s.data with
  | [a, b, c, d, e, f, g, h, i, j] =>
    [a, b, c, d, f, g, i, j].all Char.isDigit && e == '-' && h == '-'
  | _ => false

/-- The literal shape `YYYY-MM`, as claim C5 words it. -/
def specFechaYM (s : String) : Bool :=
  match s.data with
  | [a, b, c, d, e, f, g] => [a, b, c, d, f, g].all Char.isDigit && e == '-'
  | _ => false

/-- A bare 4-digit year, as claim C5 words it. -/
def specFechaY (s : String) : Bool :=
  s.data.length = 4 && s.data.all Char.isDigit

/-- Blank out the run timestamp of a consolidated row (used to compare two
runs "except for the run timestamp"). -/
def quitarTs (c : CRow) : CRow := { c with ts_ultima_actualizacion := "" }

/-- A `BookRow` with every field missing: no identifiers, no key material. -/
def bkNullRow : BookRow := ⟨none, none, none, none, none, none⟩

/-- A staged Goodreads row with the given key and every other field null. -/
def mkGR (k : String) : GRRow :=
  ⟨k, none, none, none, none, none, none, none, none, none, none, none,
   none, none, none, none, none, none, none, none, none⟩

/-- A staged Google Books row with the given key and every other field null. -/
def mkGB (k : String) : GBRow :=
  ⟨k, none, none, none, none, none, none, none, none, none, none, none,
   none, none, none, none, none, none, none, none, none, none⟩

/-- A Google Books side carrying a normalized publication date. -/
def gbDated : GBRow :=
  { mkGB "b1" with titulo := some "T1", fecha_publicacion := some "2008-01-01" }

/-- A merged row whose Google Books side has a non-null publication date. -/
def mDated : MergedRow := ⟨"b1", none, some gbDated⟩

/-- Two staged Goodreads rows sharing one key. -/
def grK2 : List GRRow := [mkGR "k", mkGR "k"]

/-- Three staged Google Books rows sharing that same key. -/
def gbK3 : List GBRow := [mkGB "k", mkGB "k", mkGB "k"]

/-- A one-row Goodreads set with key `"a"`. -/
def grW : List GRRow := [mkGR "a"]

/-- A one-row Google Books set with key `"b"`. -/
def gbW : List GBRow := [mkGB "b"]

/-- A consolidated row with the given key and price, a non-null title, and
every other field null. -/
def mkC (k : String) (p : Option ℚ) : CRow :=
  ⟨k, some "t", none, none, none, none, none, none, none, none, none, none,
   none, none, none, p, none, none, none, "goodreads", "T"⟩

/-- Ten consolidated rows, one priced 999.99: every gate assertion holds. -/
def dim999 : List CRow :=
  [mkC "b0" (some (mkRat 99999 100)), mkC "b1" none, mkC "b2" none,
   mkC "b3" none, mkC "b4" none, mkC "b5" none, mkC "b6" none,
   mkC "b7" none, mkC "b8" none, mkC "b9" none]

/-- The same ten rows except the price is 1500: only assertion 3 fails. -/
def dim1500 : List CRow :=
  [mkC "b0" (some 1500), mkC "b1" none, mkC "b2" none,
   mkC "b3" none, mkC "b4" none, mkC "b5" none, mkC "b6" none,
   mkC "b7" none, mkC "b8" none, mkC "b9" none]

/-- A two-row frame with one column, half non-null. -/
def dfW : PyDataFrame ℚ := ⟨2, [("a", [some 1, none])]⟩

/-! ## Sanity checks against the Python doctests -/

set_option maxRecDepth 10000

example : validate_isbn10 "0134685997" = true := by decide
example : validate_isbn13 "9780134685991" = true := by decide
example : validate_isbn13 "9780134685990" = false := by decide
example : isbn10_to_isbn13 "0134685997" = some "9780134685991" := by decide
example : clean_isbn "978-0-13-468599-1" = some "9780134685991" := by decide
example : validate_isbn10 "013468599x" = false := by decide
example : validate_isbn10 "097522980x" = true := by decide
example : md5Hex "" = "d41d8cd98f00b204e9800998ecf8427e" := by decide
example : md5Hex "abc" = "900150983cd24fb0d6963f7d28e17f72" := by decide
example : normalizar_fecha (some "2008-05-17") = some "2008-05-17" := by decide
example : normalizar_fecha (some "2008-05") = some "2008-05-01" := by decide
example : normalizar_fecha (some "2008") = some "2008-01-01" := by decide
example : normalizar_fecha (some "17/05/2008") = none := by decide
example : validate_iso4217_currency (some "USD") = true := by decide
example : validate_iso4217_currency (some "XYZ") = true := by decide
example : validate_iso4217_currency (some "US") = false := by decide
example :
    normalizar_titulo (some "  The Hobbit:  A Journey (Illustrated)  ")
      = some "the hobbit a journey illustrated" := by decide

/-! ## Claim C1 -/

/-- C1: for a record with no usable identifiers, `generar_book_id` does fall
through to `"hash_"` plus a 16-hex-character prefix of the MD5 digest of the
key material — but when the year is null the key material ends in the
literal string `"None"`, not the empty string: `str(None)` runs before the
`or ''` guard (integrate_pipeline.py:278).  The all-null record hashes
`"|||None"` where the claim requires `"|||"`, and the two digests differ. -/
theorem c1_null_year_key_material_bug :
    bookKeyMaterial bkNullRow = "|||None" ∧
    specBookKeyMaterial bkNullRow = "|||" ∧
    generar_book_id bkNullRow = "hash_337326691f6940c3" ∧
    generar_book_id bkNullRow ≠
      "hash_" ++ ⟨(md5Hex (specBookKeyMaterial bkNullRow)).data.take 16⟩ :=
  ⟨rfl, rfl, by decide, by decide⟩

/-! ## Claim C2 -/

/-- The column the date survivorship rule looks for
(integrate_pipeline.py:392) never exists in the merged frame: pandas only
suffixes columns present in both inputs, and `fecha_publicacion` is
Google-Books-only, so it survives the merge unsuffixed. -/
theorem fecha_gb_not_in_mergedColumns :
    "fecha_publicacion_gb" ∉ mergedColumns ∧
    "fecha_publicacion" ∈ mergedColumns := by decide

/-- C2: the claim says the consolidated publication date equals source B's
date when that is non-null; in fact the consolidated date is always null.
`aplicar_supervivencia` guards on `'fecha_publicacion_gb' in group.columns`,
a column the merged frame never contains (`fecha_gb_not_in_mergedColumns`),
so the else-branch `None` is always taken — here shown on a group whose
Google Books side carries the non-null date `"2008-01-01"`. -/
theorem c2_fecha_publicacion_always_null_bug :
    "fecha_publicacion_gb" ∉ mergedColumns ∧
    "fecha_publicacion" ∈ mergedColumns ∧
    mDated.gb.bind (·.fecha_publicacion) = some "2008-01-01" ∧
    (aplicar_supervivencia [mDated] "T").map (·.fecha_publicacion)
      = some none ∧
    (deduplicar [mDated] "T").map (·.fecha_publicacion) = [none] :=
  ⟨by decide, by decide, rfl, by decide, by decide⟩

/-! ## Claim C3 -/

theorem sum_map_add {β : Type} (l : List β) (f g : β → ℕ) :
    (l.map fun x => f x + g x).sum = (l.map f).sum + (l.map g).sum := by
  induction l with
  | nil => rfl
  | cons x t ih =>
    simp only [List.map_cons, List.sum_cons, ih]
    omega

theorem countP_eq_sum_map {β : Type} (l : List β) (p : β → Bool) :
    l.countP p = (l.map fun b => if p b then 1 else 0).sum := by
  induction l with
  | nil => rfl
  | cons b t ih =>
    rw [List.countP_cons, List.map_cons, List.sum_cons, ih]
    exact Nat.add_comm _ _

theorem sum_map_le {β : Type} (l : List β) (f g : β → ℕ)
    (h : ∀ a ∈ l, f a ≤ g a) : (l.map f).sum ≤ (l.map g).sum := by
  induction l with
  | nil => exact le_refl 0
  | cons x t ih =>
    simp only [List.map_cons, List.sum_cons]
    have := h x (List.mem_cons_self x t)
    have := ih fun a ha => h a (List.mem_cons_of_mem x ha)
    omega

theorem length_le_sum_map {β : Type} (l : List β) (g : β → ℕ)
    (h : ∀ a ∈ l, 1 ≤ g a) : l.length ≤ (l.map g).sum := by
  induction l with
  | nil => exact le_refl 0
  | cons x t ih =>
    simp only [List.map_cons, List.sum_cons, List.length_cons]
    have := h x (List.mem_cons_self x t)
    have := ih fun a ha => h a (List.mem_cons_of_mem x ha)
    omega

theorem sum_map_le_length {β : Type} (l : List β) (g : β → ℕ)
    (h : ∀ a ∈ l, g a ≤ 1) : (l.map g).sum ≤ l.length := by
  induction l with
  | nil => exact le_refl 0
  | cons x t ih =>
    simp only [List.map_cons, List.sum_cons, List.length_cons]
    have := h x (List.mem_cons_self x t)
    have := ih fun a ha => h a (List.mem_cons_of_mem x ha)
    omega

theorem sum_map_one {β : Type} (l : List β) :
    (l.map fun _ => 1).sum = l.length := by
  induction l with
  | nil => rfl
  | cons x t ih =>
    simp only [List.map_cons, List.sum_cons, List.length_cons, ih]
    omega

theorem filter_length_split {β : Type} (l : List β) (q : β → Bool) :
    (l.filter q).length + (l.filter fun a => !q a).length = l.length := by
  induction l with
  | nil => rfl
  | cons x t ih =>
    by_cases hq : q x = true
    · rw [List.filter_cons_of_pos hq, List.filter_cons_of_neg (by simp [hq])]
      simp only [List.length_cons]
      omega
    · rw [List.filter_cons_of_neg hq,
        List.filter_cons_of_pos (by simp [Bool.eq_false_iff.mpr hq])]
      simp only [List.length_cons]
      omega

theorem beq_comm_str (x y : String) : (x == y) = (y == x) := by
  by_cases h : x = y
  · subst h; rfl
  · have h' : ¬ y = x := fun hy => h hy.symm
    simp [h, h']

/-- Exchange of a double count: summing per-left-row match counts over the
left rows equals summing per-right-row match counts over the right rows. -/
theorem sum_countP_comm (A : List GRRow) (B : List GBRow)
    (p : GRRow → GBRow → Bool) :
    (A.map fun a => B.countP (p a)).sum
      = (B.map fun b => A.countP fun a => p a b).sum := by
  induction A with
  | nil => simp [List.countP_nil]
  | cons a A ih =>
    have h1 : (B.map fun b => (a :: A).countP fun a' => p a' b)
        = B.map fun b =>
            (A.countP fun a' => p a' b) + (if p a b then 1 else 0) :=
      List.map_congr_left fun b _ => by simp [List.countP_cons]
    have h2 := sum_map_add B (fun b => A.countP fun a' => p a' b)
      (fun b => if p a b then 1 else 0)
    rw [List.map_cons, List.sum_cons, ih, h1, h2, ← countP_eq_sum_map]
    exact Nat.add_comm _ _

/-- Row count of the outer join: each left row contributes its match count
(or 1 when unmatched), plus the unmatched right rows. -/
theorem consolidar_length (A : List GRRow) (B : List GBRow) :
    (consolidar_fuentes A B).length =
      (A.map fun a =>
        if (B.filter fun b => b.book_id == a.book_id).isEmpty then 1
        else (B.filter fun b => b.book_id == a.book_id).length).sum
      + (B.filter fun b => !A.any fun a => b.book_id == a.book_id).length := by
  simp only [consolidar_fuentes, List.length_append, List.length_map]
  congr 1
  induction A with
  | nil => rfl
  | cons a t ih =>
    simp only [List.flatMap_cons, List.length_append, List.map_cons,
      List.sum_cons, ih]
    congr 1
    by_cases hie : (B.filter fun b => b.book_id == a.book_id).isEmpty = true
    · simp [hie]
    · simp only [Bool.not_eq_true] at hie
      simp [hie]

theorem consolidar_mem_left (A : List GRRow) (B : List GBRow) (a : GRRow)
    (ha : a ∈ A) : ∃ m ∈ consolidar_fuentes A B, m.book_id = a.book_id := by
  cases hfil : B.filter fun b => b.book_id == a.book_id with
  | nil =>
    refine ⟨⟨a.book_id, some a, none⟩, ?_, rfl⟩
    apply List.mem_append_left
    apply List.mem_flatMap.mpr
    refine ⟨a, ha, ?_⟩
    simp [hfil]
  | cons b bs =>
    refine ⟨⟨a.book_id, some a, some b⟩, ?_, rfl⟩
    apply List.mem_append_left
    apply List.mem_flatMap.mpr
    refine ⟨a, ha, ?_⟩
    simp only [hfil, List.isEmpty_cons, Bool.false_eq_true, if_false]
    exact List.mem_map_of_mem _ (List.mem_cons_self b bs)

theorem consolidar_mem_right (A : List GRRow) (B : List GBRow) (b : GBRow)
    (hb : b ∈ B) : ∃ m ∈ consolidar_fuentes A B, m.book_id = b.book_id := by
  by_cases hany : (A.any fun a => b.book_id == a.book_id) = true
  · obtain ⟨a, ha, hab⟩ := List.any_eq_true.mp hany
    have hab' : b.book_id = a.book_id := by simpa using hab
    have hbm : b ∈ B.filter fun b' => b'.book_id == a.book_id :=
      List.mem_filter.mpr ⟨hb, by simp [hab']⟩
    refine ⟨⟨a.book_id, some a, some b⟩, ?_, hab'.symm⟩
    apply List.mem_append_left
    apply List.mem_flatMap.mpr
    refine ⟨a, ha, ?_⟩
    have hie : (B.filter fun b' => b'.book_id == a.book_id).isEmpty = false :=
      List.isEmpty_eq_false.mpr (List.ne_nil_of_mem hbm)
    simp only [hie, Bool.false_eq_true, if_false]
    exact List.mem_map_of_mem _ hbm
  · refine ⟨⟨b.book_id, none, some b⟩, ?_, rfl⟩
    apply List.mem_append_right
    apply List.mem_map_of_mem
    refine List.mem_filter.mpr ⟨hb, ?_⟩
    simp [Bool.eq_false_iff.mpr hany]

theorem consolidar_lower (A : List GRRow) (B : List GBRow) :
    max A.length B.length ≤ (consolidar_fuentes A B).length := by
  rw [consolidar_length]
  apply Nat.max_le.mpr
  constructor
  · have h1 : A.length ≤ (A.map fun a =>
        if (B.filter fun b => b.book_id == a.book_id).isEmpty then 1
        else (B.filter fun b => b.book_id == a.book_id).length).sum := by
      apply length_le_sum_map
      intro a _
      by_cases hie : (B.filter fun b => b.book_id == a.book_id).isEmpty = true
      · simp [hie]
      · rw [if_neg hie]
        have hne : (B.filter fun b => b.book_id == a.book_id) ≠ [] := by
          simpa [List.isEmpty_iff] using hie
        exact List.length_pos.mpr hne
    omega
  · have hsplit := filter_length_split B
      fun b => A.any fun a => b.book_id == a.book_id
    have hmatched : (B.filter fun b =>
        A.any fun a => b.book_id == a.book_id).length ≤
        (A.map fun a =>
          if (B.filter fun b => b.book_id == a.book_id).isEmpty then 1
          else (B.filter fun b => b.book_id == a.book_id).length).sum := by
      have s1 : (B.filter fun b =>
          A.any fun a => b.book_id == a.book_id).length
          = (B.map fun b =>
              if A.any (fun a => b.book_id == a.book_id) then 1 else 0).sum :=
        by rw [← List.countP_eq_length_filter, countP_eq_sum_map]
      have s2 : (B.map fun b =>
          if A.any (fun a => b.book_id == a.book_id) then 1 else 0).sum
          ≤ (B.map fun b =>
              A.countP fun a => b.book_id == a.book_id).sum := by
        apply sum_map_le
        intro b _
        by_cases hq : (A.any fun a => b.book_id == a.book_id) = true
        · rw [if_pos hq]
          obtain ⟨a, ha, hab⟩ := List.any_eq_true.mp hq
          exact List.countP_pos_iff.mpr ⟨a, ha, hab⟩
        · simp [hq]
      have s3 : (B.map fun b =>
          A.countP fun a => b.book_id == a.book_id).sum
          = (A.map fun a =>
              B.countP fun b => b.book_id == a.book_id).sum :=
        (sum_countP_comm A B fun a b => b.book_id == a.book_id).symm
      have s4 : (A.map fun a =>
          B.countP fun b => b.book_id == a.book_id).sum
          ≤ (A.map fun a =>
            if (B.filter fun b => b.book_id == a.book_id).isEmpty then 1
            else (B.filter fun b => b.book_id == a.book_id).length).sum := by
        apply sum_map_le
        intro a _
        rw [List.countP_eq_length_filter]
        by_cases hie :
            (B.filter fun b => b.book_id == a.book_id).isEmpty = true
        · have : (B.filter fun b => b.book_id == a.book_id) = [] :=
            List.isEmpty_iff.mp hie
          simp [hie, this]
        · rw [if_neg hie]
      omega
    omega

theorem count_key_le_one_of_nodupA (A : List GRRow)
    (hA : (A.map (·.book_id)).Nodup) (k : String) :
    (A.countP fun a => a.book_id == k) ≤ 1 := by
  have h1 : (A.map (·.book_id)).countP (· == k)
      = A.countP fun a => a.book_id == k := by
    rw [List.countP_map]; rfl
  rw [← h1]
  exact List.nodup_iff_count_le_one.mp hA k

theorem count_key_le_one_of_nodupB (B : List GBRow)
    (hB : (B.map (·.book_id)).Nodup) (k : String) :
    (B.countP fun b => b.book_id == k) ≤ 1 := by
  have h1 : (B.map (·.book_id)).countP (· == k)
      = B.countP fun b => b.book_id == k := by
    rw [List.countP_map]; rfl
  rw [← h1]
  exact List.nodup_iff_count_le_one.mp hB k

theorem consolidar_upper (A : List GRRow) (B : List GBRow)
    (h : (A.map (·.book_id)).Nodup ∨ (B.map (·.book_id)).Nodup) :
    (consolidar_fuentes A B).length ≤ A.length + B.length := by
  rw [consolidar_length]
  rcases h with hA | hB
  · have h1 : (A.map fun a =>
        if (B.filter fun b => b.book_id == a.book_id).isEmpty then 1
        else (B.filter fun b => b.book_id == a.book_id).length).sum
        ≤ (A.map fun a =>
            1 + (B.filter fun b => b.book_id == a.book_id).length).sum := by
      apply sum_map_le
      intro a _
      by_cases hie : (B.filter fun b => b.book_id == a.book_id).isEmpty = true
      · rw [if_pos hie]; omega
      · rw [if_neg hie]; omega
    have h2 : (A.map fun a =>
        1 + (B.filter fun b => b.book_id == a.book_id).length).sum
        = A.length + (A.map fun a =>
            (B.filter fun b => b.book_id == a.book_id).length).sum := by
      rw [sum_map_add A (fun _ => 1) _, sum_map_one]
    have h3 : (A.map fun a =>
        (B.filter fun b => b.book_id == a.book_id).length).sum
        ≤ (B.filter fun b =>
            A.any fun a => b.book_id == a.book_id).length := by
      have e1 : (A.map fun a =>
          (B.filter fun b => b.book_id == a.book_id).length).sum
          = (A.map fun a =>
              B.countP fun b => b.book_id == a.book_id).sum := by
        apply congrArg
        exact List.map_congr_left fun a _ =>
          (List.countP_eq_length_filter _ _).symm
      have e2 := sum_countP_comm A B fun a b => b.book_id == a.book_id
      rw [e1, e2, ← List.countP_eq_length_filter, countP_eq_sum_map]
      apply sum_map_le
      intro b _
      by_cases hq : (A.any fun a => b.book_id == a.book_id) = true
      · rw [if_pos hq]
        have hcongr : (A.countP fun a => b.book_id == a.book_id)
            = A.countP fun a => a.book_id == b.book_id :=
          List.countP_congr fun a _ => by rw [beq_comm_str]
        rw [hcongr]
        exact count_key_le_one_of_nodupA A hA b.book_id
      · have hz : (A.countP fun a => b.book_id == a.book_id) = 0 :=
          List.countP_eq_zero.mpr fun a ha hpa =>
            (List.any_eq_false.mp (Bool.eq_false_iff.mpr hq) a ha) hpa
        simp [hz]
    have hsplit := filter_length_split B
      fun b => A.any fun a => b.book_id == a.book_id
    omega
  · have h1 : (A.map fun a =>
        if (B.filter fun b => b.book_id == a.book_id).isEmpty then 1
        else (B.filter fun b => b.book_id == a.book_id).length).sum
        ≤ A.length := by
      apply sum_map_le_length
      intro a _
      by_cases hie : (B.filter fun b => b.book_id == a.book_id).isEmpty = true
      · rw [if_pos hie]
      · rw [if_neg hie, ← List.countP_eq_length_filter]
        exact count_key_le_one_of_nodupB B hB a.book_id
    have h2 := List.length_filter_le
      (fun b => !A.any fun a => b.book_id == a.book_id) B
    omega

/-- C3 amended: every key present in either input set appears on at least
one merged row, and the merged row count is at least `max(|A|, |B|)`; the
upper bound `|A| + |B|` holds whenever at least one of the two inputs has
pairwise-distinct canonical keys.  (Unconditionally the upper bound fails:
see the counterexample with a key duplicated in both inputs.) -/
theorem c3_merge_completeness_amended :
    (∀ (A : List GRRow) (B : List GBRow) (k : String),
       (k ∈ A.map (·.book_id) ∨ k ∈ B.map (·.book_id)) →
       ∃ m ∈ consolidar_fuentes A B, m.book_id = k) ∧
    (∀ (A : List GRRow) (B : List GBRow),
       max A.length B.length ≤ (consolidar_fuentes A B).length) ∧
    (∀ (A : List GRRow) (B : List GBRow),
       ((A.map (·.book_id)).Nodup ∨ (B.map (·.book_id)).Nodup) →
       (consolidar_fuentes A B).length ≤ A.length + B.length) := by
  refine ⟨?_, consolidar_lower, consolidar_upper⟩
  intro A B k hk
  rcases hk with hA | hB
  · obtain ⟨a, ha, hak⟩ := List.mem_map.mp hA
    obtain ⟨m, hm, hmk⟩ := consolidar_mem_left A B a ha
    exact ⟨m, hm, hmk.trans hak⟩
  · obtain ⟨b, hb, hbk⟩ := List.mem_map.mp hB
    obtain ⟨m, hm, hmk⟩ := consolidar_mem_right A B b hb
    exact ⟨m, hm, hmk.trans hbk⟩

/-- C3 counterexample to the claimed unconditional upper bound: a key
occurring twice in one input and three times in the other yields
`2 × 3 = 6` merged rows, exceeding `|A| + |B| = 5`. -/
theorem c3_upper_bound_counterexample :
    (consolidar_fuentes grK2 gbK3).length = 6 ∧
    grK2.length + gbK3.length = 5 := by decide

/-- Witness for the amended C3 theorem at concrete disjoint one-row inputs. -/
theorem c3_witness :
    (∃ m ∈ consolidar_fuentes grW gbW, m.book_id = "a") ∧
    (consolidar_fuentes grW gbW).length ≤ grW.length + gbW.length :=
  ⟨c3_merge_completeness_amended.1 grW gbW "a" (Or.inl (by decide)),
   c3_merge_completeness_amended.2.2 grW gbW (Or.inl (by decide))⟩

/-! ## Claim C4 -/

theorem digitChar_isDigit (n : Nat) (h : n < 10) :
    (digitChar n).isDigit = true := by
  interval_cases n <;> decide

theorem charDigit_digitChar (n : Nat) (h : n < 10) :
    charDigit (digitChar n) = n := by
  interval_cases n <;> decide

theorem clean_isbn_of_digits (l : List Char) (hne : l ≠ [])
    (hdig : l.all Char.isDigit = true) : clean_isbn ⟨l⟩ = some ⟨l⟩ := by
  have hfilter : l.filter isbnKeepChar = l := by
    apply List.filter_eq_self.mpr
    intro c hc
    have hd := List.all_eq_true.mp hdig c hc
    simp [isbnKeepChar, hd]
  have hmap : (l.map fun c => if c = 'x' then 'X' else c) = l := by
    have hid : ∀ c ∈ l, (if c = 'x' then 'X' else c) = c := by
      intro c hc
      have hd := List.all_eq_true.mp hdig c hc
      have hcx : c ≠ 'x' := by
        intro hx
        subst hx
        exact absurd hd (by decide)
      simp [hcx]
    calc l.map (fun c => if c = 'x' then 'X' else c) = l.map id :=
        List.map_congr_left hid
      _ = l := List.map_id l
  simp only [clean_isbn, hfilter, hmap]
  rw [if_neg hne]

/-- Inversion of a successful `validate_isbn10`: the cleaned string has ten
characters, the first nine are digits, and the weighted total is divisible
by 11. -/
theorem validate_isbn10_spec (s : String) (h : validate_isbn10 s = true) :
    ∃ c, clean_isbn s = some c ∧ c.data.length = 10 ∧
      (c.data.take 9).all Char.isDigit = true ∧
      isbn10_total c.data % 11 = 0 := by
  cases hc : clean_isbn s with
  | none =>
    simp [validate_isbn10, hc] at h
  | some c =>
    simp only [validate_isbn10, hc] at h
    split_ifs at h with h10 hall
    exact ⟨c, rfl, h10, hall, of_decide_eq_true h⟩

/-- Appending the recomputed check digit to `978` plus nine digits always
yields a string that `validate_isbn13` accepts. -/
theorem validate_isbn13_of_nine_digits (l9 : List Char) (h9 : l9.length = 9)
    (hdig : l9.all Char.isDigit = true) :
    validate_isbn13
      ⟨('9' :: '7' :: '8' :: l9) ++
        [digitChar ((10 - isbn13_checksum ('9' :: '7' :: '8' :: l9) % 10)
          % 10)]⟩ = true := by
  have hcdlt : (10 - isbn13_checksum ('9' :: '7' :: '8' :: l9) % 10) % 10
      < 10 := Nat.mod_lt _ (by norm_num)
  have hblen : ('9' :: '7' :: '8' :: l9).length = 12 := by
    simp [h9]
  have halldig : (('9' :: '7' :: '8' :: l9) ++
      [digitChar ((10 - isbn13_checksum ('9' :: '7' :: '8' :: l9) % 10)
        % 10)]).all Char.isDigit = true := by
    simp only [List.all_append, List.all_cons, Bool.and_eq_true]
    refine ⟨⟨by decide, by decide, by decide, hdig⟩, ?_⟩
    simp [digitChar_isDigit _ hcdlt]
  have hne : (('9' :: '7' :: '8' :: l9) ++
      [digitChar ((10 - isbn13_checksum ('9' :: '7' :: '8' :: l9) % 10)
        % 10)]) ≠ [] := by simp
  have hclean := clean_isbn_of_digits _ hne halldig
  simp only [validate_isbn13, hclean]
  have hlen13 : (('9' :: '7' :: '8' :: l9) ++
      [digitChar ((10 - isbn13_checksum ('9' :: '7' :: '8' :: l9) % 10)
        % 10)]).length = 13 := by
    simp [h9]
  rw [if_pos hlen13, if_pos halldig]
  have htake : (('9' :: '7' :: '8' :: l9) ++
      [digitChar ((10 - isbn13_checksum ('9' :: '7' :: '8' :: l9) % 10)
        % 10)]).take 12 = '9' :: '7' :: '8' :: l9 :=
    List.take_left' hblen
  have hgetD : (('9' :: '7' :: '8' :: l9) ++
      [digitChar ((10 - isbn13_checksum ('9' :: '7' :: '8' :: l9) % 10)
        % 10)]).getD 12 '0'
      = digitChar ((10 - isbn13_checksum ('9' :: '7' :: '8' :: l9) % 10)
        % 10) := by
    rw [List.getD_append_right _ _ _ _ (le_of_eq hblen), hblen]
    rfl
  have htake2 : ('9' :: '7' :: '8' :: l9).take 12 = '9' :: '7' :: '8' :: l9 :=
    List.take_of_length_le (le_of_eq hblen)
  have hcs : ∀ x : Char, isbn13_checksum (('9' :: '7' :: '8' :: l9) ++ [x])
      = isbn13_checksum ('9' :: '7' :: '8' :: l9) := by
    intro x
    have ht : (('9' :: '7' :: '8' :: l9) ++ [x]).take 12
        = '9' :: '7' :: '8' :: l9 := List.take_left' hblen
    simp only [isbn13_checksum, ht, htake2]
  apply decide_eq_true
  show (10 - isbn13_checksum _ % 10) % 10 = charDigit _
  rw [hgetD, charDigit_digitChar _ hcdlt, hcs]

/-- C4: every input accepted by `validate_isbn10` converts to a 13-character
value beginning with `978` that `validate_isbn13` accepts (determinism is
definitional: the embedding is a pure function); in particular
`"0134685997"` converts to `"9780134685991"`. -/
theorem c4_isbn10_to_isbn13_valid :
    (∀ s : String, validate_isbn10 s = true →
       ∃ t, isbn10_to_isbn13 s = some t ∧ t.length = 13 ∧
         t.data.take 3 = "978".data ∧ validate_isbn13 t = true) ∧
    isbn10_to_isbn13 "0134685997" = some "9780134685991" := by
  constructor
  · intro s h
    obtain ⟨c, hc, h10, hall, -⟩ := validate_isbn10_spec s h
    have h9 : (c.data.take 9).length = 9 := by
      rw [List.length_take, h10]
      exact min_eq_left (by norm_num)
    have ht : isbn10_to_isbn13 s =
        some ⟨('9' :: '7' :: '8' :: c.data.take 9) ++
          [digitChar ((10 -
            isbn13_checksum ('9' :: '7' :: '8' :: c.data.take 9) % 10)
            % 10)]⟩ := by
      rw [isbn10_to_isbn13, if_pos h, hc]
    refine ⟨_, ht, ?_, ?_, ?_⟩
    · show (('9' :: '7' :: '8' :: c.data.take 9) ++
        [digitChar _]).length = 13
      simp [h9]
    · rfl
    · exact validate_isbn13_of_nine_digits (c.data.take 9) h9 hall
  · decide

/-- Witness for C4 at the concrete input `"0134685997"`. -/
theorem c4_witness :
    validate_isbn10 "0134685997" = true ∧
    ∃ t, isbn10_to_isbn13 "0134685997" = some t ∧ t.length = 13 ∧
      t.data.take 3 = "978".data ∧ validate_isbn13 t = true :=
  ⟨by decide, c4_isbn10_to_isbn13_valid.1 "0134685997" (by decide)⟩

/-! ## Claim C5 -/

/-- C5's claim is that any input not shaped `YYYY-MM-DD`, `YYYY-MM` or
`YYYY` yields null; but the code's first shape test only checks length 10
and dashes at positions 4 and 7 — it never checks digits — so
`"abcd-ef-gh"` (none of the three claimed shapes) is returned unchanged
rather than nulled. -/
theorem c5_counterexample :
    specFechaYMD "abcd-ef-gh" = false ∧
    specFechaYM "abcd-ef-gh" = false ∧
    specFechaY "abcd-ef-gh" = false ∧
    normalizar_fecha (some "abcd-ef-gh") = some "abcd-ef-gh" := by decide

/-- C5 amended: `normalizar_fecha` nulls null input, and otherwise dispatches
on the *stripped* string: length 10 with dashes at positions 4 and 7 (digits
not required) is returned as stripped; length 7 with a dash at position 4
gets `"-01"` appended; a 4-character digit string gets `"-01-01"` appended;
everything else yields null. -/
theorem c5_normalizar_fecha_amended :
    normalizar_fecha none = none ∧
    ∀ s : String,
      ((pyStrip s).data.length = 10 → (pyStrip s).data.getD 4 ' ' = '-' →
        (pyStrip s).data.getD 7 ' ' = '-' →
        normalizar_fecha (some s) = some (pyStrip s)) ∧
      ((pyStrip s).data.length = 7 → (pyStrip s).data.getD 4 ' ' = '-' →
        normalizar_fecha (some s) = some (pyStrip s ++ "-01")) ∧
      ((pyStrip s).data.length = 4 →
        (pyStrip s).data.all Char.isDigit = true →
        normalizar_fecha (some s) = some (pyStrip s ++ "-01-01")) ∧
      (¬((pyStrip s).data.length = 10 ∧ (pyStrip s).data.getD 4 ' ' = '-' ∧
          (pyStrip s).data.getD 7 ' ' = '-') →
       ¬((pyStrip s).data.length = 7 ∧ (pyStrip s).data.getD 4 ' ' = '-') →
       ¬((pyStrip s).data.length = 4 ∧
          (pyStrip s).data.all Char.isDigit = true) →
        normalizar_fecha (some s) = none) := by
  refine ⟨rfl, fun s => ⟨?_, ?_, ?_, ?_⟩⟩
  · intro h10 h4 h7
    simp only [normalizar_fecha]
    rw [if_pos ⟨h10, h4, h7⟩]
  · intro h7 h4
    simp only [normalizar_fecha]
    rw [if_neg (fun hc => by obtain ⟨h, -, -⟩ := hc; omega),
      if_pos ⟨h7, h4⟩]
  · intro h4 hdig
    simp only [normalizar_fecha]
    rw [if_neg (fun hc => by obtain ⟨h, -, -⟩ := hc; omega),
      if_neg (fun hc => by obtain ⟨h, -⟩ := hc; omega),
      if_pos ⟨h4, hdig⟩]
  · intro hn10 hn7 hn4
    simp only [normalizar_fecha]
    rw [if_neg hn10, if_neg hn7, if_neg hn4]

/-- Witness for the amended C5 theorem at the inputs `"2008-05"` and
`" 2008-01-02 "`. -/
theorem c5_witness :
    normalizar_fecha (some "2008-05") = some "2008-05-01" ∧
    normalizar_fecha (some " 2008-01-02 ") = some "2008-01-02" := by
  constructor
  · have h := (c5_normalizar_fecha_amended.2 "2008-05").2.1
      (by decide) (by decide)
    exact h.trans (by decide)
  · have h := (c5_normalizar_fecha_amended.2 " 2008-01-02 ").1
      (by decide) (by decide) (by decide)
    exact h.trans (by decide)

/-! ## Claim C6 -/

/-- C6 claims the predicate is true iff the *value passed in* is three
uppercase letters or an allow-list member; but the code strips and
uppercases first (utils_quality.py:117), so `"usd"` — neither three
uppercase letters nor in the allow-list — is accepted. -/
theorem c6_counterexample :
    validate_iso4217_currency (some "usd") = true ∧
    claimCurrencyPred "usd" = false := by decide

/-- C6 amended: null is rejected, and otherwise the code accepts exactly the
values whose *stripped, uppercased* form is three uppercase letters or an
allow-list member (the claim's predicate applied after `strip().upper()`). -/
theorem c6_currency_amended :
    validate_iso4217_currency none = false ∧
    ∀ v : String,
      validate_iso4217_currency (some v)
        = claimCurrencyPred (asciiUpper (pyStrip v)) := by
  refine ⟨rfl, fun v => ?_⟩
  simp only [validate_iso4217_currency, claimCurrencyPred]
  exact (Bool.or_comm _ _).symm

/-! ## Claim C7 -/

theorem foldl_min_le_iff (l : List ℚ) (p b : ℚ) :
    b ≤ l.foldl min p ↔ (b ≤ p ∧ ∀ x ∈ l, b ≤ x) := by
  induction l generalizing p with
  | nil => simp
  | cons x t ih =>
    simp only [List.foldl_cons, ih, le_min_iff, List.forall_mem_cons]
    tauto

theorem foldl_le_max_iff (l : List ℚ) (p b : ℚ) :
    l.foldl max p ≤ b ↔ (p ≤ b ∧ ∀ x ∈ l, x ≤ b) := by
  induction l generalizing p with
  | nil => simp
  | cons x t ih =>
    simp only [List.foldl_cons, ih, max_le_iff, List.forall_mem_cons]
    tauto

/-- C7: the price assertion passes exactly when every present consolidated
price lies in `[0, 1000]` (vacuously when no price is present); when the
whole gate passes, all prices are in range; a row priced 1500 aborts the
gate with the price error while 999.99 passes all four assertions. -/
theorem c7_price_assertion :
    (∀ dim_book : List CRow,
       assert_precios dim_book = Except.ok () ↔
       ∀ p ∈ dim_book.filterMap (·.precio), 0 ≤ p ∧ p ≤ 1000) ∧
    (∀ dim_book : List CRow, assert_calidad dim_book = Except.ok () →
       ∀ p ∈ dim_book.filterMap (·.precio), 0 ≤ p ∧ p ≤ 1000) ∧
    assert_calidad dim1500
      = Except.error "ERROR: Precios fuera de rango [0, 1000]" ∧
    assert_calidad dim999 = Except.ok () := by
  have hrango : ∀ ps : List ℚ,
      precios_en_rango ps = true ↔ ∀ p ∈ ps, 0 ≤ p ∧ p ≤ 1000 := by
    intro ps
    cases ps with
    | nil => simp [precios_en_rango]
    | cons p rest =>
      simp only [precios_en_rango, decide_eq_true_eq, foldl_min_le_iff,
        foldl_le_max_iff, List.forall_mem_cons]
      constructor
      · rintro ⟨⟨h0p, h0r⟩, h1p, h1r⟩
        exact ⟨⟨h0p, h1p⟩, fun x hx => ⟨h0r x hx, h1r x hx⟩⟩
      · rintro ⟨⟨h0p, h1p⟩, hr⟩
        exact ⟨⟨h0p, fun x hx => (hr x hx).1⟩, h1p,
          fun x hx => (hr x hx).2⟩
  have hmain : ∀ dim_book : List CRow,
      assert_precios dim_book = Except.ok () ↔
      ∀ p ∈ dim_book.filterMap (·.precio), 0 ≤ p ∧ p ≤ 1000 := by
    intro dim_book
    rw [← hrango]
    simp only [assert_precios]
    constructor
    · intro h
      by_cases hc : precios_en_rango (dim_book.filterMap (·.precio)) = true
      · exact hc
      · rw [if_neg (by simp [hc])] at h
        exact absurd h (by simp)
    · intro h
      rw [if_pos (by simp [h])]
  refine ⟨hmain, ?_, ?_, ?_⟩
  · intro dim_book h
    apply (hmain dim_book).mp
    simp only [assert_calidad] at h
    cases hap : assert_precios dim_book with
    | ok u => cases u; rfl
    | error e =>
      rw [hap] at h
      split_ifs at h
  · have h1 : calculate_completeness (dim_df dim1500) "titulo" = 100 := by
      simp [calculate_completeness, dim_df, dim1500, mkC, List.lookup]
    have h2 : assert_precios dim1500
        = Except.error "ERROR: Precios fuera de rango [0, 1000]" := by
      simp [assert_precios, dim1500, mkC, precios_en_rango]
      norm_num
    have h3 : series_is_unique (dim1500.map (·.book_id)) = true := by decide
    simp [assert_calidad, h1, h2, h3]
    norm_num
  · have h1 : calculate_completeness (dim_df dim999) "titulo" = 100 := by
      simp [calculate_completeness, dim_df, dim999, mkC, List.lookup]
    have h2 : assert_precios dim999 = Except.ok () := by
      simp [assert_precios, dim999, mkC, precios_en_rango]
      norm_num [Rat.mkRat_eq_div]
    have h3 : series_is_unique (dim999.map (·.book_id)) = true := by decide
    have h4 : dim999.length = 10 := by decide
    simp [assert_calidad, h1, h2, h3, h4]
    norm_num

/-- Witness for C7's gate-implies-range conjunct at the concrete ten-row
input `dim999` whose only price is 999.99. -/
theorem c7_witness :
    (0 : ℚ) ≤ mkRat 99999 100 ∧ mkRat 99999 100 ≤ 1000 :=
  c7_price_assertion.2.1 dim999 c7_price_assertion.2.2.2
    (mkRat 99999 100) (by decide)

/-! ## Claim C8 -/

theorem aplicar_supervivencia_quitarTs (g : List MergedRow) (t1 t2 : String) :
    (aplicar_supervivencia g t1).map quitarTs
      = (aplicar_supervivencia g t2).map quitarTs := by
  cases g with
  | nil => rfl
  | cons h t => rfl

/-- C8: the survivorship resolver is deterministic — `deduplicar` over the
same merged input with two different run timestamps produces identical rows
except for the run-timestamp field (which `quitarTs` blanks out).  The run
timestamp is threaded into `aplicar_supervivencia` only as the literal value
of `ts_ultima_actualizacion`, so no other field depends on it. -/
theorem c8_deduplicar_deterministic :
    ∀ (merged : List MergedRow) (ts1 ts2 : String),
      (deduplicar merged ts1).map quitarTs
        = (deduplicar merged ts2).map quitarTs := by
  intro merged ts1 ts2
  simp only [deduplicar, List.map_filterMap]
  generalize sortedKeys merged = l
  induction l with
  | nil => rfl
  | cons k ks ih =>
    simp only [List.filterMap_cons,
      aplicar_supervivencia_quitarTs (merged.filter fun r => r.book_id == k)
        ts1 ts2, ih]

/-! ## Claim C9 -/

theorem aplicar_supervivencia_book_id (h0 : MergedRow) (t0 : List MergedRow)
    (ts : String) :
    ∃ c, aplicar_supervivencia (h0 :: t0) ts = some c ∧
      c.book_id = h0.book_id :=
  ⟨_, rfl, rfl⟩

theorem filterMap_supervivencia_book_id (merged : List MergedRow)
    (ts : String) :
    ∀ keys : List String, (∀ k ∈ keys, ∃ r ∈ merged, r.book_id = k) →
      ((keys.filterMap fun k =>
        aplicar_supervivencia (merged.filter fun r => r.book_id == k) ts).map
          (·.book_id)) = keys := by
  intro keys
  induction keys with
  | nil => intro _; rfl
  | cons k ks ih =>
    intro h
    obtain ⟨r, hr, hrk⟩ := h k (List.mem_cons_self k ks)
    have hmem : r ∈ merged.filter fun r => r.book_id == k :=
      List.mem_filter.mpr ⟨hr, by simp [hrk]⟩
    cases hfil : merged.filter fun r => r.book_id == k with
    | nil => rw [hfil] at hmem; exact absurd hmem (List.not_mem_nil r)
    | cons h0 t0 =>
      have hh0 : h0.book_id = k := by
        have hm : h0 ∈ merged.filter fun r => r.book_id == k := by
          rw [hfil]; exact List.mem_cons_self h0 t0
        simpa using (List.mem_filter.mp hm).2
      obtain ⟨c, hc, hcb⟩ := aplicar_supervivencia_book_id h0 t0 ts
      rw [List.filterMap_cons_some (by rw [hfil]; exact hc), List.map_cons,
        hcb, hh0, ih (fun k' hk' => h k' (List.mem_cons_of_mem k hk'))]

/-- C9: for every merged input, `deduplicar` emits exactly one row per
distinct canonical key — its `book_id` column is precisely the (sorted,
deduplicated) key list of the input, hence duplicate-free, it covers
exactly the keys present in the input, and the gate's key-uniqueness check
accepts it.  (In the pipeline `generar_book_id` is total, so every merged
row carries a key and the null-key group is empty.) -/
theorem c9_one_row_per_key :
    ∀ (merged : List MergedRow) (ts : String),
      (deduplicar merged ts).map (·.book_id) = sortedKeys merged ∧
      ((deduplicar merged ts).map (·.book_id)).Nodup ∧
      (∀ k, k ∈ (deduplicar merged ts).map (·.book_id) ↔
        k ∈ merged.map (·.book_id)) ∧
      series_is_unique ((deduplicar merged ts).map (·.book_id)) = true := by
  intro merged ts
  have hperm : List.Perm (sortedKeys merged) (merged.map (·.book_id)).dedup :=
    List.perm_insertionSort _ _
  have hmem : ∀ k, k ∈ sortedKeys merged ↔ k ∈ merged.map (·.book_id) :=
    fun k => by rw [hperm.mem_iff, List.mem_dedup]
  have hmap : (deduplicar merged ts).map (·.book_id) = sortedKeys merged := by
    simp only [deduplicar]
    apply filterMap_supervivencia_book_id
    intro k hk
    obtain ⟨r, hr, hrk⟩ := List.mem_map.mp ((hmem k).mp hk)
    exact ⟨r, hr, hrk⟩
  have hnodup : (sortedKeys merged).Nodup :=
    hperm.nodup_iff.mpr (List.nodup_dedup _)
  refine ⟨hmap, ?_, ?_, ?_⟩
  · rw [hmap]; exact hnodup
  · intro k; rw [hmap]; exact hmem k
  · rw [hmap]; exact decide_eq_true hnodup

/-! ## Claim C10 -/

/-- C10: `calculate_completeness` is total and guarded: a missing column or
an empty frame yields 0, and on a well-formed column (as many cells as the
frame has rows) the result is the non-null fraction times 100, which lies
in `[0, 100]`. -/
theorem c10_calculate_completeness_safe :
    ∀ (α : Type) (df : PyDataFrame α) (column : String),
      (df.cols.lookup column = none → calculate_completeness df column = 0) ∧
      (df.nrows = 0 → calculate_completeness df column = 0) ∧
      (∀ col, df.cols.lookup column = some col → col.length = df.nrows →
        0 ≤ calculate_completeness df column ∧
        calculate_completeness df column ≤ 100 ∧
        (0 < df.nrows → calculate_completeness df column =
          (col.countP Option.isSome : ℚ) / (df.nrows : ℚ) * 100)) := by
  intro α df column
  refine ⟨?_, ?_, ?_⟩
  · intro h
    simp [calculate_completeness, h]
  · intro h
    cases hl : df.cols.lookup column with
    | none => simp [calculate_completeness, hl]
    | some col => simp [calculate_completeness, hl, h]
  · intro col hcol hlen
    simp only [calculate_completeness, hcol]
    by_cases hn : df.nrows = 0
    · rw [if_pos hn]
      exact ⟨le_refl 0, by norm_num, fun h0 => absurd hn (by omega)⟩
    · rw [if_neg hn]
      have hpos : (0 : ℚ) < (df.nrows : ℚ) := by
        exact_mod_cast Nat.pos_of_ne_zero hn
      have hle : (col.countP Option.isSome : ℚ) ≤ (df.nrows : ℚ) := by
        have h := List.countP_le_length (p := Option.isSome) (l := col)
        rw [hlen] at h
        exact_mod_cast h
      have hfrac : (col.countP Option.isSome : ℚ) / (df.nrows : ℚ) ≤ 1 :=
        (div_le_one hpos).mpr hle
      refine ⟨by positivity, ?_, fun _ => rfl⟩
      calc (col.countP Option.isSome : ℚ) / (df.nrows : ℚ) * 100
          ≤ 1 * 100 := by
            exact mul_le_mul_of_nonneg_right hfrac (by norm_num)
        _ = 100 := by norm_num

/-- Witness for C10 at a concrete two-row frame with one half-null column
and one absent column. -/
theorem c10_witness :
    0 ≤ calculate_completeness dfW "a" ∧
    calculate_completeness dfW "a" ≤ 100 ∧
    calculate_completeness dfW "b" = 0 := by
  have h := (c10_calculate_completeness_safe ℚ dfW "a").2.2
    [some 1, none] rfl rfl
  exact ⟨h.1, h.2.1, (c10_calculate_completeness_safe ℚ dfW "b").1 rfl⟩

end SBD

